import Mathlib

/-!
# Lens402 payment-gated transfer API — verification development

Shallow embedding of the Lens402 SDK's payment-gated data route
(`src/routes/transfers.js`), the payment-sending script
(`send-payment.js`), and the x402 payment middleware (Payment Gate,
Payment Verifier, Verified-Payment Cache).  The middleware itself is not
part of the provided sources, so those components are modelled from the
specification; the route handler and the payment script are translated
directly from the JavaScript source.

Express query-string values are either absent (`undefined`) or strings,
so a query parameter is embedded as `Option String`; JavaScript
truthiness on such a value is false exactly for `undefined` and the
empty string.
-/

/-- JavaScript truthiness of an optional string value: `undefined` and
`""` are falsy, every other string is truthy. -/
def truthy : Option String → Bool
  | none => false
  | some s => s ≠ ""

/-- JavaScript `a || b` on optional string values. -/
def jsOr (a b : Option String) : Option String :=
  if truthy a then a else b

/-- JavaScript `a && b` on optional string values. -/
def jsAnd (a b : Option String) : Option String :=
  if truthy a then b else a

/-- Digit characters accumulated into a natural number (base 10). -/
def decDigitsToNat (cs : List Char) : Nat :=
  cs.foldl (fun n c => 10 * n + (c.toNat - '0'.toNat)) 0

/-- A JavaScript number produced by `parseInt`: either `NaN` or an
integer. -/
inductive JsNum where
  | nan
  | int (n : Int)
deriving Repr, DecidableEq

/-- JavaScript `parseInt(s, 10)`: skip leading whitespace, read an
optional sign, then the longest run of leading decimal digits; `NaN`
when no digit is read. -/
def parseIntJS (s : String) : JsNum :=
  let cs := s.toList.dropWhile Char.isWhitespace
  let signNeg := cs.head? = some '-'
  let cs' := if cs.head? = some '-' ∨ cs.head? = some '+' then cs.tail else cs
  let digits := cs'.takeWhile Char.isDigit
  if digits.isEmpty then JsNum.nan
  else if signNeg then JsNum.int (-(decDigitsToNat digits : Int))
  else JsNum.int (decDigitsToNat digits)

/-- The query string of a request to `GET /api/transfers`
(`req.query`); each parameter is absent or a string. -/
structure Query where
  address : Option String := none
  fromAddress : Option String := none
  toAddress : Option String := none
  category : Option String := none
  fromBlock : Option String := none
  toBlock : Option String := none
  maxCount : Option String := none
  pageKey : Option String := none
  order : Option String := none
  contractAddresses : Option String := none
deriving Repr, DecidableEq

/-- The `queryParams` object the handler forwards to
`getAssetTransfers` (source lines 60–80). -/
structure QueryParams where
  fromAddress : Option String
  toAddress : Option String
  category : Option (List String) := none
  contractAddresses : Option (List String) := none
  fromBlock : Option String := none
  toBlock : Option String := none
  maxCount : Option JsNum := none
  pageKey : Option String := none
  order : Option String := none
deriving Repr, DecidableEq

/-- `category.split(',').map(c => c.trim())`. -/
def splitTrim (s : String) : List String :=
  (s.splitOn ",").map String.trim

/-- Embedding of the `queryParams` construction in the route handler:
`fromAddress: fromAddress || (address && address)`,
`toAddress: toAddress || (address && address)`, the comma-splitting of
`category` and `contractAddresses`, and the truthiness-guarded optional
fields, with `maxCount` going through `parseInt(maxCount, 10)`. -/
def buildQueryParams (q : Query) : QueryParams where
  fromAddress := jsOr q.fromAddress (jsAnd q.address q.address)
  toAddress := jsOr q.toAddress (jsAnd q.address q.address)
  category :=
    if truthy q.category then some (splitTrim (q.category.getD "")) else none
  contractAddresses :=
    if truthy q.contractAddresses then
      some (splitTrim (q.contractAddresses.getD "")) else none
  fromBlock := if truthy q.fromBlock then q.fromBlock else none
  toBlock := if truthy q.toBlock then q.toBlock else none
  maxCount :=
    if truthy q.maxCount then some (parseIntJS (q.maxCount.getD "")) else none
  pageKey := if truthy q.pageKey then q.pageKey else none
  order := if truthy q.order then q.order else none

/-- The 400 response body of the handler's parameter validation
(source lines 51–56); `exampleHint` embeds the JSON key `example`. -/
structure ErrorBody where
  error : String
  status : Nat
  message : String
  exampleHint : String
deriving Repr, DecidableEq

/-- First step of the admitted handler: either the Bad Request
short-circuit or a call to the provider with the built parameters. -/
inductive HandlerStep where
  | badRequest (body : ErrorBody)
  | callProvider (params : QueryParams)
deriving Repr, DecidableEq

/-- The parameter validation of the route handler (source lines 50–57):
`if (!address && !fromAddress && !toAddress)` return 400, otherwise
build `queryParams` and call the provider. -/
def transfersValidate (q : Query) : HandlerStep :=
  if !truthy q.address && !truthy q.fromAddress && !truthy q.toAddress then
    HandlerStep.badRequest
      { error := "Bad Request"
        status := 400
        message := "At least one of: address, fromAddress, or toAddress is required"
        exampleHint := "/api/transfers?address=addr..." }
  else
    HandlerStep.callProvider (buildQueryParams q)

/-! ## Payment middleware (Payment Gate, Verifier, Verified-Payment Cache)

Modelled from the spec: the x402 middleware (`paymentRequired`,
the Payment Verifier and the Verified-Payment Cache) is not among the
provided sources, so these definitions follow the specification's
component design (§4.1–§4.4) and error taxonomy (§7). -/

/-- Modelled from the spec: the outcome of checking a PaymentProof
against a PaymentRequirement (spec §3, VerificationVerdict);
`verified` carries the observed amount, the transaction timestamp and
the transaction hash.  Amounts are integers in the canonical smallest
unit of the token (spec §3: amounts are "compared in a canonical
unit"). -/
inductive VerificationVerdict where
  | verified (amount : ℤ) (timestamp : ℕ) (transactionHash : String)
  | devModeBypass (transactionHash : String)
  | notFound
  | pending
  | transactionFailed
  | wrongRecipient
  | insufficientAmount
deriving Repr, DecidableEq

/-- Modelled from the spec: the effected token transfer of a ledger
transaction (sender is irrelevant to every check). -/
structure TransferEvent where
  recipient : String
  tokenContract : String
  amount : ℤ
deriving Repr, DecidableEq

/-- Modelled from the spec: what the Ledger Query Adapter reports for a
transaction that exists: finality, execution status, the effected
transfer, and a timestamp. -/
structure LedgerTransaction where
  finalized : Bool
  succeeded : Bool
  transfer : TransferEvent
  timestamp : ℕ
deriving Repr, DecidableEq

/-- Modelled from the spec: the Ledger Query Adapter for a fixed
network, as a map from transaction hash to the transaction, `none`
meaning not found. -/
def Ledger : Type := String → Option LedgerTransaction

/-- Modelled from the spec: the configuration of the payment middleware
for one route — the displayed price string together with the
PaymentRequirement fields (recipient, minimum amount, tolerance,
token contract, network) and the process-wide development-mode flag. -/
structure GateConfig where
  price : String
  minimumAmount : ℤ
  tolerance : ℤ
  recipientAddress : String
  tokenContract : String
  network : String
  developmentMode : Bool

/-- Character-wise lowercasing of a string (used for the chain's
case-insensitive address comparison). -/
def lowerStr (s : String) : String :=
  String.mk (s.data.map Char.toLower)

/-- Modelled from the spec: the Payment Verifier (spec §4.2).  Checks
in order: existence (`notFound`), finality (`pending`), execution
status (`transactionFailed`), token contract and then case-insensitive
recipient (both rejected through the `wrongRecipient` / contract
mismatch path, spec §8), amount against
`minimumAmount − tolerance` (`insufficientAmount`), otherwise
`verified` with the observed amount and timestamp. -/
def verify (ledger : Ledger) (hash : String) (cfg : GateConfig) :
    VerificationVerdict :=
  match ledger hash with
  | none => VerificationVerdict.notFound
  | some tx =>
    if tx.finalized = false then VerificationVerdict.pending
    else if tx.succeeded = false then VerificationVerdict.transactionFailed
    else if tx.transfer.tokenContract ≠ cfg.tokenContract then
      VerificationVerdict.wrongRecipient
    else if lowerStr tx.transfer.recipient ≠ lowerStr cfg.recipientAddress then
      VerificationVerdict.wrongRecipient
    else if tx.transfer.amount < cfg.minimumAmount - cfg.tolerance then
      VerificationVerdict.insufficientAmount
    else VerificationVerdict.verified tx.transfer.amount tx.timestamp hash

/-- Modelled from the spec: the Verified-Payment Cache, an association
list from transaction hash to verdict; lookup takes the first binding,
insertion prepends, so readers see either no entry or a fully
populated one. -/
abbrev Cache : Type := List (String × VerificationVerdict)

/-- Cache lookup by transaction hash. -/
def Cache.get (c : Cache) (h : String) : Option VerificationVerdict :=
  List.lookup h c

/-- Cache insertion. -/
def Cache.put (c : Cache) (h : String) (v : VerificationVerdict) : Cache :=
  (h, v) :: c

/-- A verdict the cache may store: only `verified` and `devModeBypass`
are cache-eligible (spec §4.4, §9). -/
def isCacheEligible : VerificationVerdict → Bool
  | VerificationVerdict.verified _ _ _ => true
  | VerificationVerdict.devModeBypass _ => true
  | _ => false

/-- Modelled from the spec: the 402 challenge payload naming `amount`,
`network`, `recipientAddress` and human instructions (spec §4.1, §6). -/
structure ChallengePayload where
  amount : String
  network : String
  recipientAddress : String
  instructions : String
deriving Repr, DecidableEq

/-- The human payment instructions of the challenge payload. -/
def challengeInstructions (cfg : GateConfig) : String :=
  "Send " ++ cfg.price ++ " USDC to " ++ cfg.recipientAddress ++
    " and retry with the X-Payment-Hash header"

/-- The challenge payload built from a route's gate configuration. -/
def challengeOf (cfg : GateConfig) : ChallengePayload where
  amount := cfg.price
  network := cfg.network
  recipientAddress := cfg.recipientAddress
  instructions := challengeInstructions cfg

/-- Modelled from the spec: the reason attached to a `Rejected` gate
outcome (spec §7): `verificationRejected` covers the bypass token used
outside development mode, the other constructors name the failing
verdict. -/
inductive RejectReason where
  | verificationRejected
  | notFound
  | pending
  | transactionFailed
  | wrongRecipient
  | insufficientAmount
deriving Repr, DecidableEq

/-- The reject reason of a non-successful verdict. -/
def reasonOfVerdict : VerificationVerdict → RejectReason
  | VerificationVerdict.notFound => RejectReason.notFound
  | VerificationVerdict.pending => RejectReason.pending
  | VerificationVerdict.transactionFailed => RejectReason.transactionFailed
  | VerificationVerdict.wrongRecipient => RejectReason.wrongRecipient
  | VerificationVerdict.insufficientAmount => RejectReason.insufficientAmount
  | _ => RejectReason.verificationRejected

/-- Modelled from the spec: the Payment Gate's decision (spec §4.1). -/
inductive GateOutcome where
  | admitted (verdict : VerificationVerdict)
  | challenge (payload : ChallengePayload)
  | rejected (reason : RejectReason)
deriving Repr, DecidableEq

/-- The gate's result: its outcome, the cache after the request, and
how many ledger queries were issued while handling it. -/
structure GateResult where
  outcome : GateOutcome
  cache : Cache
  ledgerCalls : ℕ

/-- Modelled from the spec: the Payment Gate (spec §4.1).  No proof
header yields the 402 challenge; the literal bypass token `"demo"` is
admitted with a synthetic `devModeBypass` verdict, without a ledger
query, exactly when `developmentMode` is true, and is
`verificationRejected` otherwise (spec §7); any other proof first
consults the Verified-Payment Cache (a hit is admitted with no ledger
query), then runs the Verifier, caching only a `verified` verdict. -/
def admitGate (cfg : GateConfig) (ledger : Ledger) (cache : Cache)
    (proof : Option String) : GateResult :=
  match proof with
  | none => { outcome := GateOutcome.challenge (challengeOf cfg)
              cache := cache, ledgerCalls := 0 }
  | some p =>
    if p = "demo" then
      if cfg.developmentMode then
        { outcome := GateOutcome.admitted (VerificationVerdict.devModeBypass "demo")
          cache := cache, ledgerCalls := 0 }
      else
        { outcome := GateOutcome.rejected RejectReason.verificationRejected
          cache := cache, ledgerCalls := 0 }
    else
      match Cache.get cache p with
      | some v =>
        { outcome := GateOutcome.admitted v, cache := cache, ledgerCalls := 0 }
      | none =>
        match verify ledger p cfg with
        | VerificationVerdict.verified a ts h =>
          { outcome := GateOutcome.admitted (VerificationVerdict.verified a ts h)
            cache := Cache.put cache p (VerificationVerdict.verified a ts h)
            ledgerCalls := 1 }
        | v =>
          { outcome := GateOutcome.rejected (reasonOfVerdict v)
            cache := cache, ledgerCalls := 1 }

/-! ## Route pipeline

`router.get('/', paymentRequired({ price: '0.01' }), handler)`: Express
runs the payment middleware first, then the handler (source line 34).
The response assembly below is translated from the handler
(source lines 91–104); the provider result is what `getAssetTransfers`
returns. -/

/-- The external data provider's result: an opaque result set, an
optional opaque continuation cursor `pageKey`, and `totalCount`. -/
structure ProviderResult where
  transfers : List String
  pageKey : Option String
  totalCount : Option ℕ
deriving Repr, DecidableEq

/-- The `payment` object of the 200 response
(`req.payment?.hash/amount/timestamp`, source lines 94–98), attached to
the request context by the gate on admission. -/
structure PaymentInfo where
  hash : Option String
  amount : Option ℤ
  timestamp : Option ℕ
deriving Repr, DecidableEq

/-- The request-context payment metadata of an admitted verdict. -/
def paymentInfoOf : VerificationVerdict → PaymentInfo
  | VerificationVerdict.verified a ts h =>
    { hash := some h, amount := some a, timestamp := some ts }
  | VerificationVerdict.devModeBypass h =>
    { hash := some h, amount := none, timestamp := none }
  | _ => { hash := none, amount := none, timestamp := none }

/-- The `pagination` object of the 200 response (source lines 99–103):
`hasMore: !!result.pageKey`, `pageKey: result.pageKey`,
`count: result.totalCount`. -/
structure Pagination where
  hasMore : Bool
  pageKey : Option String
  count : Option ℕ
deriving Repr, DecidableEq

/-- The 200 response body (source lines 91–104). -/
structure SuccessBody where
  success : Bool
  data : ProviderResult
  payment : PaymentInfo
  pagination : Pagination
deriving Repr, DecidableEq

/-- Embedding of the handler's response assembly (source lines 91–104):
`hasMore` is the JavaScript truthiness `!!result.pageKey`, and
`pageKey` is passed through unchanged. -/
def buildSuccessBody (result : ProviderResult) (payment : PaymentInfo) :
    SuccessBody where
  success := true
  data := result
  payment := payment
  pagination :=
    { hasMore := truthy result.pageKey
      pageKey := result.pageKey
      count := result.totalCount }

/-- The response of the full route pipeline. -/
inductive RouteResponse where
  | challenge (payload : ChallengePayload)
  | paymentRejected (reason : RejectReason)
  | badRequest (body : ErrorBody)
  | ok (body : SuccessBody)
deriving Repr, DecidableEq

/-- The HTTP status of a route response: 402 for the challenge and for
a payment rejection, the body's status (400) for Bad Request, 200 for
success. -/
def RouteResponse.status : RouteResponse → ℕ
  | RouteResponse.challenge _ => 402
  | RouteResponse.paymentRejected _ => 402
  | RouteResponse.badRequest b => b.status
  | RouteResponse.ok _ => 200

/-- The full result of one request to the route: the response, the
cache afterwards, and how many ledger queries and provider queries
were issued. -/
structure RouteResult where
  response : RouteResponse
  cache : Cache
  ledgerCalls : ℕ
  providerCalls : ℕ

/-- The full `GET /api/transfers` pipeline: the payment gate runs
first (source line 34); only on admission does the handler validate
the query parameters and, when they are valid, query the provider and
assemble the 200 body. -/
def transfersRoute (cfg : GateConfig) (ledger : Ledger)
    (provider : QueryParams → ProviderResult) (cache : Cache)
    (proof : Option String) (q : Query) : RouteResult :=
  let g := admitGate cfg ledger cache proof
  match g.outcome with
  | GateOutcome.challenge c =>
    { response := RouteResponse.challenge c, cache := g.cache
      ledgerCalls := g.ledgerCalls, providerCalls := 0 }
  | GateOutcome.rejected r =>
    { response := RouteResponse.paymentRejected r, cache := g.cache
      ledgerCalls := g.ledgerCalls, providerCalls := 0 }
  | GateOutcome.admitted v =>
    match transfersValidate q with
    | HandlerStep.badRequest e =>
      { response := RouteResponse.badRequest e, cache := g.cache
        ledgerCalls := g.ledgerCalls, providerCalls := 0 }
    | HandlerStep.callProvider params =>
      { response := RouteResponse.ok (buildSuccessBody (provider params) (paymentInfoOf v))
        cache := g.cache, ledgerCalls := g.ledgerCalls, providerCalls := 1 }

/-- The gate configuration of the transfers route: the source
configures the middleware with `paymentRequired({ price: '0.01' })`
(source line 34); every other configuration value comes from the
environment. -/
def transfersRouteConfig (base : GateConfig) : GateConfig :=
  { base with price := "0.01" }

/-! ## `send-payment.js`

Translated from the payment-sending script.  Its top level defines
exactly the constants `USDC_CONTRACT` (line 13) and `TOKEN_PROGRAM_ID`
(line 16); line 69 references the identifier
`TRANSFER_FUNCTION_SIGNATURE`, so building the call data is modelled
as a lookup in the script's constant environment, which throws a
`ReferenceError` when the identifier is missing. -/

/-- The top-level constants defined by `send-payment.js`. -/
def scriptConstants : List (String × String) :=
  [("USDC_CONTRACT", "EPjFWdd5AufqSSqeM2qN1xzybapC8G4wEGGkZwyTDt1v"),
   ("TOKEN_PROGRAM_ID", "TokenkegQfeZyiNwAJbNbGKPFXCWuBvf9Ss623VQ5DA")]

/-- Hex-digit characters accumulated into a natural number. -/
def hexDigitsToNat (cs : List Char) : ℕ :=
  cs.foldl (fun n c => 16 * n + c.toNat % 16 +
    (if c.isDigit then 0 else 9)) 0

/-- JavaScript `BigInt(s)` on the balance string: `"0x"`-prefixed hex
or plain decimal; `none` models the thrown `SyntaxError`. -/
def parseBigIntJS (s : String) : Option ℤ :=
  let cs := s.toList
  if cs.take 2 = ['0', 'x'] then
    let ds := cs.drop 2
    if ds ≠ [] ∧ ds.all (fun c => c.isDigit ∨ ('a' ≤ c ∧ c ≤ 'f') ∨ ('A' ≤ c ∧ c ≤ 'F')) then
      some (hexDigitsToNat ds : ℤ)
    else none
  else if cs ≠ [] ∧ cs.all Char.isDigit then
    some (decDigitsToNat cs : ℤ)
  else none

/-- `String.prototype.padStart(64, '0')`. -/
def padStart64 (s : String) : String :=
  String.mk (List.replicate (64 - s.length) '0') ++ s

/-- `n.toString(16)` for a natural number, via `Nat.toDigits`. -/
def natToHexString (n : ℕ) : String :=
  String.mk (Nat.toDigits 16 n)

/-- The transaction object built at source lines 73–77; `toContract`
embeds the JSON key `to`. -/
structure SolTx where
  toContract : String
  data : String
  gasLimit : ℕ
deriving Repr, DecidableEq

/-- How one invocation of `sendUSDCPayment` ends, up to handing the
built transaction to `wallet.sendTransaction`. -/
inductive SendResult where
  | exitNoBalance
  | bigIntError
  | exitInsufficient
  | refError (ident : String)
  | sent (tx : SolTx)
deriving Repr, DecidableEq

/-- Embedding of `sendUSDCPayment` (source lines 18–92) up to the
transaction send: the zero-balance check on the raw balance string
(line 43), the `BigInt` conversion (line 49), the sufficient-balance
check (line 58), then the call-data construction (lines 67–69), whose
reference to `TRANSFER_FUNCTION_SIGNATURE` is a lookup in
`scriptConstants` and throws a `ReferenceError` when undefined; only
after that is the transaction built (lines 73–77) and sent (line 92).
`amountUnits` stands for `BigInt(Math.floor(amountInUSDC * 1e6))`. -/
def sendUSDCPayment (tokenBalance : String) (recipient : String)
    (amountUnits : ℤ) : SendResult :=
  if tokenBalance = "addr" ∨ tokenBalance = "0x0" then SendResult.exitNoBalance
  else
    match parseBigIntJS tokenBalance with
    | none => SendResult.bigIntError
    | some bal =>
      if amountUnits > bal then SendResult.exitInsufficient
      else
        match List.lookup "TRANSFER_FUNCTION_SIGNATURE" scriptConstants with
        | none => SendResult.refError "TRANSFER_FUNCTION_SIGNATURE"
        | some sig =>
          SendResult.sent
            { toContract := (List.lookup "USDC_CONTRACT" scriptConstants).getD ""
              data := sig ++ padStart64 ((recipient.drop 2)) ++
                padStart64 (natToHexString amountUnits.toNat)
              gasLimit := 100000 }

/-! ## Concrete fixtures used by witnesses and counterexamples -/

/-- The concrete admitted request of C5: a valid address filter and
`maxCount=5000` in the query string. -/
def maxCountQuery : Query :=
  { address := some "64swuFWG5RDSc3SDUhRKefYJtY5q1EkoixcPg3ZsVpcG"
    maxCount := some "5000" }

/-- The provider result of C7's counterexample: a response that
contains a `pageKey` equal to the empty string. -/
def emptyPageKeyResult : ProviderResult :=
  { transfers := ["t1"], pageKey := some "", totalCount := some 1 }

/-- The payment metadata used by C7's counterexample. -/
def paymentInfoSample : PaymentInfo :=
  { hash := some "0xh", amount := some 10000, timestamp := some 5 }

/-- The query of C9's counterexample: `address` present and a
`fromAddress` explicitly supplied as the empty string. -/
def emptyFromQuery : Query :=
  { address := some "0xA", fromAddress := some "", toAddress := some "0xB" }

/-- The gate configuration used by concrete verification examples:
0.01 USDC (10000 smallest units) minimum with a one-smallest-unit
absolute tolerance. -/
def sampleCfg : GateConfig :=
  { price := "0.01"
    minimumAmount := 10000
    tolerance := 1
    recipientAddress := "0xrecv"
    tokenContract := "USDC"
    network := "Solana-Devnet"
    developmentMode := false }

/-- A transfer paying exactly `minimumAmount − tolerance` (9999
smallest units), with a recipient differing only in case. -/
def boundaryTx : LedgerTransaction :=
  { finalized := true, succeeded := true
    transfer := { recipient := "0xRECV", tokenContract := "USDC"
                  amount := 9999 }
    timestamp := 7 }

/-- A transfer one smallest unit below the tolerance boundary. -/
def belowBoundaryTx : LedgerTransaction :=
  { finalized := true, succeeded := true
    transfer := { recipient := "0xRECV", tokenContract := "USDC"
                  amount := 9998 }
    timestamp := 8 }

/-- The concrete ledger holding the two boundary transactions. -/
def boundaryLedger : Ledger := fun h =>
  if h = "0xboundary" then some boundaryTx
  else if h = "0xbelow" then some belowBoundaryTx
  else none

/-- A finalized, successful transaction paying the right recipient a
sufficient amount, but in a token other than the required contract. -/
def wrongTokenTx : LedgerTransaction :=
  { finalized := true, succeeded := true
    transfer := { recipient := "0xrecv", tokenContract := "OTHER"
                  amount := 20000 }
    timestamp := 3 }

/-- The concrete ledger of C2's counterexample. -/
def wrongTokenLedger : Ledger := fun h =>
  if h = "0xwrongtoken" then some wrongTokenTx else none

/-- A cache already holding one verified payment. -/
def seededCache : Cache := [("0xa", VerificationVerdict.verified 5 9 "0xa")]

/-- A ledger that fails every lookup (the adapter mocked to fail on a
second call). -/
def failingLedger : Ledger := fun _ => none

/-- The trivial data provider used in concrete pipeline runs. -/
def emptyProvider : QueryParams → ProviderResult :=
  fun _ => { transfers := [], pageKey := none, totalCount := none }

/-- The sample configuration with development mode switched on. -/
def devSampleCfg : GateConfig := { sampleCfg with developmentMode := true }

/-! ## Theorems -/

/-- C1: a request whose proof header is the literal bypass token
`"demo"` is admitted with the synthetic `devModeBypass` verdict and no
ledger query when `developmentMode` is true, and with
`developmentMode` false the same token is rejected with
`verificationRejected` and is never admitted. -/
theorem demo_bypass_requires_development_mode (cfg : GateConfig)
    (ledger : Ledger) (cache : Cache) :
    (admitGate { cfg with developmentMode := true } ledger cache
        (some "demo")).outcome
      = GateOutcome.admitted (VerificationVerdict.devModeBypass "demo")
    ∧ (admitGate { cfg with developmentMode := true } ledger cache
        (some "demo")).ledgerCalls = 0
    ∧ (admitGate { cfg with developmentMode := false } ledger cache
        (some "demo")).outcome
      = GateOutcome.rejected RejectReason.verificationRejected
    ∧ ∀ v, (admitGate { cfg with developmentMode := false } ledger cache
        (some "demo")).outcome ≠ GateOutcome.admitted v := by
  refine ⟨by simp [admitGate], by simp [admitGate], by simp [admitGate], ?_⟩
  intro v
  simp [admitGate]

/-- C10: any invocation of `sendUSDCPayment` that passes the
zero-balance check and the sufficient-balance check throws a
`ReferenceError` on the undefined identifier
`TRANSFER_FUNCTION_SIGNATURE` while building the transfer call data,
before any transaction is constructed or sent. -/
theorem sendUSDCPayment_reference_error (tokenBalance recipient : String)
    (amountUnits bal : ℤ)
    (h1 : tokenBalance ≠ "addr") (h2 : tokenBalance ≠ "0x0")
    (h3 : parseBigIntJS tokenBalance = some bal) (h4 : amountUnits ≤ bal) :
    List.lookup "TRANSFER_FUNCTION_SIGNATURE" scriptConstants = none
    ∧ sendUSDCPayment tokenBalance recipient amountUnits
        = SendResult.refError "TRANSFER_FUNCTION_SIGNATURE"
    ∧ ∀ tx, sendUSDCPayment tokenBalance recipient amountUnits
        ≠ SendResult.sent tx := by
  have hlk : List.lookup "TRANSFER_FUNCTION_SIGNATURE" scriptConstants = none := by
    decide
  have hmain : sendUSDCPayment tokenBalance recipient amountUnits
      = SendResult.refError "TRANSFER_FUNCTION_SIGNATURE" := by
    simp [sendUSDCPayment, h1, h2, h3, hlk, not_lt.mpr h4]
  refine ⟨hlk, hmain, ?_⟩
  intro tx
  rw [hmain]
  intro hcontra
  exact SendResult.noConfusion hcontra

/-- Witness for C10: a concrete balance of 10 USDC (hex smallest
units) and an amount of 0.01 USDC pass both checks and hit the
`ReferenceError`. -/
theorem sendUSDCPayment_reference_error_witness :
    sendUSDCPayment "0x989680" "0xRecipientAddr" 10000
      = SendResult.refError "TRANSFER_FUNCTION_SIGNATURE" :=
  (sendUSDCPayment_reference_error "0x989680" "0xRecipientAddr" 10000 10000000
    (by decide) (by decide) (by decide) (by decide)).2.1

/-- C5: the handler performs no clamping of `maxCount` — with
`maxCount=5000` the validation forwards the parsed value 5000 to the
provider, outside [1, 1000], contradicting the documented clamp. -/
theorem maxCount_forwarded_unclamped :
    transfersValidate maxCountQuery
      = HandlerStep.callProvider (buildQueryParams maxCountQuery)
    ∧ (buildQueryParams maxCountQuery).maxCount = some (JsNum.int 5000)
    ∧ ¬ ∀ n : ℤ, (buildQueryParams maxCountQuery).maxCount
        = some (JsNum.int n) → 1 ≤ n ∧ n ≤ 1000 := by
  refine ⟨by decide, by decide, ?_⟩
  intro hall
  have h := hall 5000 (by decide)
  exact absurd h.2 (by decide)

/-- C7 counterexample: a provider response containing the `pageKey`
`""` is passed through unchanged, yet `hasMore` is `false`, so
`hasMore` is not true exactly when a `pageKey` is present. -/
theorem hasMore_false_on_empty_pageKey :
    emptyPageKeyResult.pageKey ≠ none
    ∧ (buildSuccessBody emptyPageKeyResult paymentInfoSample).pagination.pageKey
        = emptyPageKeyResult.pageKey
    ∧ (buildSuccessBody emptyPageKeyResult paymentInfoSample).pagination.hasMore
        = false := by
  decide

/-- C7 amended: the outer `pagination.pageKey` (and `count`) equal the
provider's values unchanged, and `hasMore` is true exactly when the
provider response contains a non-empty `pageKey`. -/
theorem pagination_passthrough (result : ProviderResult)
    (payment : PaymentInfo) :
    (buildSuccessBody result payment).pagination.pageKey = result.pageKey
    ∧ (buildSuccessBody result payment).pagination.count = result.totalCount
    ∧ ((buildSuccessBody result payment).pagination.hasMore = true ↔
        ∃ s, result.pageKey = some s ∧ s ≠ "") := by
  refine ⟨rfl, rfl, ?_⟩
  cases hp : result.pageKey with
  | none => simp [buildSuccessBody, truthy, hp]
  | some s => simp [buildSuccessBody, truthy, hp]

/-- Witness for C7's amended theorem at a concrete provider result. -/
theorem pagination_passthrough_witness :
    (buildSuccessBody { transfers := [], pageKey := some "pk", totalCount := some 2 }
        { hash := some "h", amount := none, timestamp := none }).pagination.pageKey
      = some "pk" :=
  (pagination_passthrough
    { transfers := [], pageKey := some "pk", totalCount := some 2 }
    { hash := some "h", amount := none, timestamp := none }).1

/-- C9 counterexample: with `address=0xA` and an explicitly supplied
empty `fromAddress`, the forwarded `fromAddress` is `0xA`, not the
supplied value — the supplied `fromAddress` does not take
precedence. -/
theorem empty_fromAddress_loses_to_address :
    emptyFromQuery.fromAddress = some ""
    ∧ (buildQueryParams emptyFromQuery).fromAddress = some "0xA"
    ∧ (buildQueryParams emptyFromQuery).fromAddress ≠ emptyFromQuery.fromAddress := by
  decide

/-- C9 amended: an absent or empty `fromAddress`/`toAddress` defaults
to `address` in the forwarded query, and a non-empty explicitly
supplied `fromAddress`/`toAddress` takes precedence over `address`. -/
theorem queryParams_address_defaulting (q : Query) :
    (q.fromAddress = none → (buildQueryParams q).fromAddress = q.address)
    ∧ (q.toAddress = none → (buildQueryParams q).toAddress = q.address)
    ∧ (q.fromAddress = some "" → (buildQueryParams q).fromAddress = q.address)
    ∧ (q.toAddress = some "" → (buildQueryParams q).toAddress = q.address)
    ∧ (∀ s, q.fromAddress = some s → s ≠ "" →
        (buildQueryParams q).fromAddress = some s)
    ∧ (∀ s, q.toAddress = some s → s ≠ "" →
        (buildQueryParams q).toAddress = some s) := by
  refine ⟨fun h => ?_, fun h => ?_, fun h => ?_, fun h => ?_,
    fun s h hs => ?_, fun s h hs => ?_⟩
  · simp [buildQueryParams, jsOr, jsAnd, truthy, h]
  · simp [buildQueryParams, jsOr, jsAnd, truthy, h]
  · simp [buildQueryParams, jsOr, jsAnd, truthy, h]
  · simp [buildQueryParams, jsOr, jsAnd, truthy, h]
  · simp [buildQueryParams, jsOr, jsAnd, truthy, h, hs]
  · simp [buildQueryParams, jsOr, jsAnd, truthy, h, hs]

/-- Witness for C9's amended theorem: `address` alone fills
`fromAddress`, and a supplied non-empty `toAddress` wins. -/
theorem queryParams_address_defaulting_witness :
    (buildQueryParams { address := some "0xA" }).fromAddress = some "0xA"
    ∧ (buildQueryParams { address := some "0xA", toAddress := some "0xB" }).toAddress
        = some "0xB" :=
  ⟨(queryParams_address_defaulting { address := some "0xA" }).1 rfl,
   (queryParams_address_defaulting
      { address := some "0xA", toAddress := some "0xB" }).2.2.2.2.2 "0xB" rfl
      (by decide)⟩

/-- C3: for a transaction that exists, is finalized and successful, is
in the required token and pays the required recipient, an amount
exactly equal to `minimumAmount − tolerance` verifies, and any amount
strictly below that boundary is `insufficientAmount`. -/
theorem amount_tolerance_boundary (ledger : Ledger) (hash : String)
    (cfg : GateConfig) (tx : LedgerTransaction)
    (hl : ledger hash = some tx) (hf : tx.finalized = true)
    (hs : tx.succeeded = true)
    (htc : tx.transfer.tokenContract = cfg.tokenContract)
    (hr : lowerStr tx.transfer.recipient = lowerStr cfg.recipientAddress) :
    (tx.transfer.amount = cfg.minimumAmount - cfg.tolerance →
      verify ledger hash cfg
        = VerificationVerdict.verified tx.transfer.amount tx.timestamp hash)
    ∧ (tx.transfer.amount < cfg.minimumAmount - cfg.tolerance →
      verify ledger hash cfg = VerificationVerdict.insufficientAmount) := by
  constructor
  · intro ha
    simp [verify, hl, hf, hs, htc, hr, ha]
  · intro ha
    simp [verify, hl, hf, hs, htc, hr, ha]

/-- Witness for C3 at the concrete boundary: 9999 smallest units
verify against a 10000 minimum with tolerance 1, 9998 do not. -/
theorem amount_tolerance_boundary_witness :
    verify boundaryLedger "0xboundary" sampleCfg
      = VerificationVerdict.verified 9999 7 "0xboundary"
    ∧ verify boundaryLedger "0xbelow" sampleCfg
      = VerificationVerdict.insufficientAmount :=
  ⟨(amount_tolerance_boundary boundaryLedger "0xboundary" sampleCfg boundaryTx
      (by decide) (by decide) (by decide) (by decide) (by decide)).1 (by decide),
   (amount_tolerance_boundary boundaryLedger "0xbelow" sampleCfg belowBoundaryTx
      (by decide) (by decide) (by decide) (by decide) (by decide)).2 (by decide)⟩

/-- C2 counterexample: a transaction that exists, is finalized and
successful, pays the required recipient an amount far above the
threshold — yet in the wrong token contract — is rejected as
`wrongRecipient` (the contract-mismatch path), where the claim's
enumeration, which never tests the token contract, predicts
`verified` with the observed amount and timestamp. -/
theorem verify_wrong_token_rejected :
    wrongTokenLedger "0xwrongtoken" = some wrongTokenTx
    ∧ wrongTokenTx.finalized = true
    ∧ wrongTokenTx.succeeded = true
    ∧ lowerStr wrongTokenTx.transfer.recipient
        = lowerStr sampleCfg.recipientAddress
    ∧ ¬ wrongTokenTx.transfer.amount
        < sampleCfg.minimumAmount - sampleCfg.tolerance
    ∧ verify wrongTokenLedger "0xwrongtoken" sampleCfg
        = VerificationVerdict.wrongRecipient
    ∧ verify wrongTokenLedger "0xwrongtoken" sampleCfg
        ≠ VerificationVerdict.verified wrongTokenTx.transfer.amount
            wrongTokenTx.timestamp "0xwrongtoken" := by
  decide

/-- C2 amended: `verify` returns the first matching verdict in the
order NotFound (no such transaction), Pending (not finalized),
TransactionFailed (execution failure), WrongRecipient (token contract
mismatch, or recipient mismatch under case-insensitive comparison),
InsufficientAmount (amount below `minimumAmount − tolerance`),
otherwise Verified with the observed amount and the transaction
timestamp. -/
theorem verify_first_matching_verdict (ledger : Ledger) (hash : String)
    (cfg : GateConfig) :
    (verify ledger hash cfg = VerificationVerdict.notFound ↔
      ledger hash = none)
    ∧ (verify ledger hash cfg = VerificationVerdict.pending ↔
      ∃ tx, ledger hash = some tx ∧ tx.finalized = false)
    ∧ (verify ledger hash cfg = VerificationVerdict.transactionFailed ↔
      ∃ tx, ledger hash = some tx ∧ tx.finalized = true
        ∧ tx.succeeded = false)
    ∧ (verify ledger hash cfg = VerificationVerdict.wrongRecipient ↔
      ∃ tx, ledger hash = some tx ∧ tx.finalized = true
        ∧ tx.succeeded = true
        ∧ (tx.transfer.tokenContract ≠ cfg.tokenContract
           ∨ (tx.transfer.tokenContract = cfg.tokenContract
              ∧ lowerStr tx.transfer.recipient ≠ lowerStr cfg.recipientAddress)))
    ∧ (verify ledger hash cfg = VerificationVerdict.insufficientAmount ↔
      ∃ tx, ledger hash = some tx ∧ tx.finalized = true
        ∧ tx.succeeded = true
        ∧ tx.transfer.tokenContract = cfg.tokenContract
        ∧ lowerStr tx.transfer.recipient = lowerStr cfg.recipientAddress
        ∧ tx.transfer.amount < cfg.minimumAmount - cfg.tolerance)
    ∧ (∀ tx, ledger hash = some tx → tx.finalized = true →
        tx.succeeded = true →
        tx.transfer.tokenContract = cfg.tokenContract →
        lowerStr tx.transfer.recipient = lowerStr cfg.recipientAddress →
        ¬ tx.transfer.amount < cfg.minimumAmount - cfg.tolerance →
        verify ledger hash cfg
          = VerificationVerdict.verified tx.transfer.amount tx.timestamp hash) := by
  have hlast : ∀ tx, ledger hash = some tx → tx.finalized = true →
      tx.succeeded = true →
      tx.transfer.tokenContract = cfg.tokenContract →
      lowerStr tx.transfer.recipient = lowerStr cfg.recipientAddress →
      ¬ tx.transfer.amount < cfg.minimumAmount - cfg.tolerance →
      verify ledger hash cfg
        = VerificationVerdict.verified tx.transfer.amount tx.timestamp hash := by
    intro tx heq hf hs htc hr ha
    simp [verify, heq, hf, hs, htc, hr, ha]
  refine ⟨?_, ?_, ?_, ?_, ?_, hlast⟩ <;>
  · cases hl : ledger hash with
    | none => simp [verify, hl]
    | some tx =>
      cases hf : tx.finalized with
      | false => simp [verify, hl, hf]
      | true =>
        cases hs : tx.succeeded with
        | false => simp [verify, hl, hf, hs]
        | true =>
          by_cases htc : tx.transfer.tokenContract = cfg.tokenContract
          · by_cases hr : lowerStr tx.transfer.recipient
                = lowerStr cfg.recipientAddress
            · by_cases ha : tx.transfer.amount
                  < cfg.minimumAmount - cfg.tolerance
              · simp [verify, hl, hf, hs, htc, hr, ha]
              · simp [verify, hl, hf, hs, htc, hr, ha]
            · simp [verify, hl, hf, hs, htc, hr]
          · simp [verify, hl, hf, hs, htc]

/-- Witness for C2's amended theorem: an unknown hash is `notFound`,
and the wrong-token transaction above is `wrongRecipient` through the
characterization. -/
theorem verify_first_matching_verdict_witness :
    verify wrongTokenLedger "0xunknown" sampleCfg
      = VerificationVerdict.notFound :=
  (verify_first_matching_verdict wrongTokenLedger "0xunknown" sampleCfg).1.mpr
    (by decide)

/-- C4: the Verified-Payment Cache only ever holds successful
verdicts: the gate preserves cache eligibility of every stored entry
(a failed verification is never written), existing entries are never
overwritten (write-once per hash), the bypass token is never cached,
and a hash already cached as `verified` is admitted with that verdict
and zero ledger queries. -/
theorem cache_only_successful_verdicts (cfg : GateConfig) (ledger : Ledger)
    (cache : Cache) (proof : Option String)
    (hwf : ∀ p ∈ cache, isCacheEligible p.2 = true) :
    (∀ p ∈ (admitGate cfg ledger cache proof).cache, isCacheEligible p.2 = true)
    ∧ (∀ h v, Cache.get cache h = some v →
        Cache.get (admitGate cfg ledger cache proof).cache h = some v)
    ∧ Cache.get (admitGate cfg ledger cache proof).cache "demo"
        = Cache.get cache "demo"
    ∧ (∀ h a ts hh, h ≠ "demo" →
        Cache.get cache h = some (VerificationVerdict.verified a ts hh) →
        (admitGate cfg ledger cache (some h)).outcome
          = GateOutcome.admitted (VerificationVerdict.verified a ts hh)
        ∧ (admitGate cfg ledger cache (some h)).ledgerCalls = 0) := by
  have h4 : ∀ h a ts hh, h ≠ "demo" →
      Cache.get cache h = some (VerificationVerdict.verified a ts hh) →
      (admitGate cfg ledger cache (some h)).outcome
        = GateOutcome.admitted (VerificationVerdict.verified a ts hh)
      ∧ (admitGate cfg ledger cache (some h)).ledgerCalls = 0 := by
    intro h a ts hh hne hget
    constructor <;> simp [admitGate, hne, hget]
  have hcache : (admitGate cfg ledger cache proof).cache = cache
      ∨ ∃ p w, p ≠ "demo" ∧ Cache.get cache p = none
        ∧ isCacheEligible w = true
        ∧ (admitGate cfg ledger cache proof).cache = (p, w) :: cache := by
    cases proof with
    | none => left; rfl
    | some p =>
      by_cases hd : p = "demo"
      · left
        by_cases hdev : cfg.developmentMode <;> simp [admitGate, hd, hdev]
      · cases hc : Cache.get cache p with
        | some v => left; simp [admitGate, hd, hc]
        | none =>
          cases hv : verify ledger p cfg with
          | verified a ts hh =>
            right
            exact ⟨p, VerificationVerdict.verified a ts hh, hd, hc, rfl,
              by simp [admitGate, hd, hc, hv, Cache.put]⟩
          | devModeBypass hh => left; simp [admitGate, hd, hc, hv]
          | notFound => left; simp [admitGate, hd, hc, hv]
          | pending => left; simp [admitGate, hd, hc, hv]
          | transactionFailed => left; simp [admitGate, hd, hc, hv]
          | wrongRecipient => left; simp [admitGate, hd, hc, hv]
          | insufficientAmount => left; simp [admitGate, hd, hc, hv]
  rcases hcache with heq | ⟨p, w, hpd, hpnone, hwel, heq⟩
  · rw [heq]
    exact ⟨hwf, fun h v hv => hv, rfl, h4⟩
  · rw [heq]
    refine ⟨?_, ?_, ?_, h4⟩
    · intro q hq
      rcases List.mem_cons.mp hq with hq | hq
      · rw [hq]; exact hwel
      · exact hwf q hq
    · intro h v hget
      by_cases hhp : h = p
      · subst hhp
        rw [hget] at hpnone
        exact Option.noConfusion hpnone
      · have hbp : (h == p) = false := by
          simp [hhp]
        simpa [Cache.get, List.lookup, hbp] using hget
    · have hbd : (("demo" : String) == p) = false := by
        simp [Ne.symm hpd]
      simp [Cache.get, List.lookup, hbd]

/-- Witness for C4: with the failing ledger, the hash cached as
verified is still admitted with the cached verdict and no ledger
query. -/
theorem cache_only_successful_verdicts_witness :
    (admitGate sampleCfg failingLedger seededCache (some "0xa")).outcome
      = GateOutcome.admitted (VerificationVerdict.verified 5 9 "0xa")
    ∧ (admitGate sampleCfg failingLedger seededCache (some "0xa")).ledgerCalls
      = 0 :=
  (cache_only_successful_verdicts sampleCfg failingLedger seededCache
      (some "0xa") (by decide)).2.2.2 "0xa" 5 9 "0xa" (by decide) (by decide)

/-- C6 counterexample: a request with none of `address`,
`fromAddress`, `toAddress`, but carrying a valid transaction-hash
proof, is answered 400 — yet one ledger query was issued for it, so
the malformed request did reach the Payment Verifier before the
parameter check. -/
theorem badRequest_after_verifier_ledger_query :
    (transfersRoute sampleCfg boundaryLedger emptyProvider []
        (some "0xboundary") {}).response.status = 400
    ∧ ¬ (transfersRoute sampleCfg boundaryLedger emptyProvider []
        (some "0xboundary") {}).ledgerCalls = 0 := by
  decide

/-- C6 amended: for every request the payment gate admits in which
none of `address`, `fromAddress`, `toAddress` is present, the response
is status 400 with the structured `error`/`status`/`message` body and
the data provider is never queried; the payment verification (with its
ledger lookup, counterexample above) happens before this parameter
check, not after. -/
theorem admitted_missing_address_badRequest (cfg : GateConfig)
    (ledger : Ledger) (provider : QueryParams → ProviderResult)
    (cache : Cache) (proof : Option String) (q : Query)
    (h1 : q.address = none) (h2 : q.fromAddress = none)
    (h3 : q.toAddress = none) (v : VerificationVerdict)
    (hadm : (admitGate cfg ledger cache proof).outcome
      = GateOutcome.admitted v) :
    (transfersRoute cfg ledger provider cache proof q).response
      = RouteResponse.badRequest
          { error := "Bad Request"
            status := 400
            message := "At least one of: address, fromAddress, or toAddress is required"
            exampleHint := "/api/transfers?address=addr..." }
    ∧ (transfersRoute cfg ledger provider cache proof q).response.status = 400
    ∧ (transfersRoute cfg ledger provider cache proof q).providerCalls = 0 := by
  have hval : transfersValidate q
      = HandlerStep.badRequest
          { error := "Bad Request"
            status := 400
            message := "At least one of: address, fromAddress, or toAddress is required"
            exampleHint := "/api/transfers?address=addr..." } := by
    simp [transfersValidate, h1, h2, h3, truthy]
  refine ⟨?_, ?_, ?_⟩ <;>
    simp [transfersRoute, hadm, hval, RouteResponse.status]

/-- Witness for C6's amended theorem: a development-mode `demo`
request without address parameters is admitted, answered 400, and the
provider is not queried. -/
theorem admitted_missing_address_badRequest_witness :
    (transfersRoute devSampleCfg boundaryLedger emptyProvider []
        (some "demo") {}).response.status = 400
    ∧ (transfersRoute devSampleCfg boundaryLedger emptyProvider []
        (some "demo") {}).providerCalls = 0 :=
  ⟨(admitted_missing_address_badRequest devSampleCfg boundaryLedger
      emptyProvider [] (some "demo") {} rfl rfl rfl
      (VerificationVerdict.devModeBypass "demo") (by decide)).2.1,
   (admitted_missing_address_badRequest devSampleCfg boundaryLedger
      emptyProvider [] (some "demo") {} rfl rfl rfl
      (VerificationVerdict.devModeBypass "demo") (by decide)).2.2⟩

/-- C8: a request to the transfers route (configured with
`paymentRequired({ price: '0.01' })`) that carries no proof header is
answered with status 402 and the structured challenge payload naming
`amount` (equal to `"0.01"`), `network`, `recipientAddress` and human
instructions. -/
theorem no_proof_yields_402_challenge (base : GateConfig) (ledger : Ledger)
    (provider : QueryParams → ProviderResult) (cache : Cache) (q : Query) :
    (transfersRoute (transfersRouteConfig base) ledger provider cache none q).response
      = RouteResponse.challenge
          { amount := "0.01"
            network := base.network
            recipientAddress := base.recipientAddress
            instructions := challengeInstructions (transfersRouteConfig base) }
    ∧ (transfersRoute (transfersRouteConfig base) ledger provider cache none q).response.status
      = 402 := by
  constructor
  · simp [transfersRoute, admitGate, challengeOf, transfersRouteConfig]
  · simp [transfersRoute, admitGate, RouteResponse.status]
